import Mathlib

/-
Verification of the namespace consistency checker
(`incubator/virtualcluster/pkg/syncer/resources/namespace/checker.go`).

The checker is embedded shallowly: every external collaborator call made
during one cycle (cluster registry, tenant-side listings and gets, the
super-master informer cache, the delete client, the requeue call) is an
oracle fixed in a `CheckerState`; the checker's two scan functions and the
full cycle become pure functions from that state to the effects they emit
(decisions, log lines, counter increments).
-/

namespace NamespaceChecker

/-- A tenant-side (virtual) namespace as the checker reads it: its
`metadata.name` and `metadata.uid`. -/
structure VirtualObject where
  name : String
  uid : String
deriving DecidableEq, Repr

/-- A super-master (physical) namespace: its `metadata.name`, its own
`metadata.uid`, and its `metadata.annotations` map, modelled as an
association list. -/
structure PhysicalObject where
  name : String
  uid : String
  anns : List (String × String)
deriving DecidableEq, Repr

/-- Go map indexing with the zero-value default: `m[k]` is `""` when the key
is absent (also when the map is nil). -/
def annGet (anns : List (String × String)) (k : String) : String :=
  match anns.find? (fun kv => kv.1 == k) with
  | some kv => kv.2
  | none => ""

/-- Modelled from the spec: `constants.LabelUID` (the `constants` package is
not under src/), the key under which a physical object carries the delegated
fingerprint copied from its virtual counterpart (§3: "delegated identity
fingerprint"). Its concrete value is irrelevant to every claim; only its role
as a fixed key is used. -/
def labelUID : String := "tenancy.x-k8s.io/uid"

/-- Modelled from the spec: the key of the owner-cluster half of the owner
annotation consumed by `conversion.GetVirtualOwner` (§4.1 `OwnerOf`). -/
def labelCluster : String := "tenancy.x-k8s.io/cluster"

/-- Modelled from the spec: the key of the virtual-name half of the owner
annotation consumed by `conversion.GetVirtualOwner` (§4.1 `OwnerOf`). -/
def labelNamespace : String := "tenancy.x-k8s.io/namespace"

/-- Modelled from the spec: `conversion.GetVirtualOwner` (§4.1 `OwnerOf`; the
`conversion` package is not under src/): extracts the owner annotation
`(tenant, virtualName)` of a physical object, returning empty components when
absent — the caller in `checkNamespaces` treats an empty component as "not
managed by this system" and skips the object. -/
def GetVirtualOwner (p : PhysicalObject) : String × String :=
  (annGet p.anns labelCluster, annGet p.anns labelNamespace)

/-- Modelled from the spec: `conversion.ToSuperMasterNamespace` (§4.1
`PhysicalNameFor`; the `conversion` package is not under src/): the pure,
deterministic physical name for `(tenant, virtualName)`, incorporating the
tenant identifier (Scenario B shows the shape `"t1-ns1"`). -/
def ToSuperMasterNamespace (clusterName vName : String) : String :=
  clusterName ++ "-" ++ vName

/-- Result of a cache or apiserver lookup, as the checker distinguishes it via
`errors.IsNotFound(err)` / `err == nil`: the object, a not-found error, or
some other error. -/
inductive Lookup (α : Type) where
  | found (a : α)
  | notFound
  | otherError
deriving DecidableEq, Repr

/-- A remediation decision issued to the executor inside the scans: a
conditional delete of a physical namespace (`namespaceClient.Namespaces()
.Delete(name, opts)` whose `opts.Preconditions` demand the given UID), or a
requeue of a virtual namespace (`RequeueObject(clusterName, &item)`). -/
inductive Decision where
  | deletePhysical (name expectedUID : String)
  | requeueVirtual (clusterName : String) (v : VirtualObject)
deriving DecidableEq, Repr

/-- The log lines `checker.go` can emit, one constructor per call site. -/
inductive LogEvent where
  /-- "tenant masters has no clusters, give up period checker" -/
  | noClusters
  /-- "error listing namespaces from cluster %s informer cache" -/
  | listTenantError (clusterName : String)
  /-- "error getting pNamespace %s from super master cache" -/
  | getPhysicalError (clusterName targetName : String)
  /-- "Found pNamespace %s delegated UID is different from tenant object."
  (the tenant-scan call site, `klog.Errorf`) -/
  | mismatchTenantSide (targetName : String)
  /-- "error requeue vNamespace %s in cluster %s" -/
  | requeueError (clusterName vName : String)
  /-- "error listing namespaces from super master informer cache" -/
  | listPhysicalError
  /-- "Found pNamespace %s delegated UID is different from tenant object."
  (the orphan-scan call site, `klog.Warningf`) -/
  | mismatchOrphanSide (pName : String)
  /-- "error deleting pNamespace %s in super master" -/
  | deleteError (pName : String)
deriving DecidableEq, Repr

/-- The external collaborators of the checker, as read-only oracles: one value
fixes the observable behaviour of every call the checker makes during a
cycle. -/
structure CheckerState where
  /-- `c.multiClusterNamespaceController.GetClusterNames()` -/
  clusterNames : List String
  /-- `c.multiClusterNamespaceController.List(clusterName)`; `none` models a
  listing error. -/
  tenantList : String → Option (List VirtualObject)
  /-- `c.multiClusterNamespaceController.Get(clusterName, "", vName)` -/
  tenantGet : String → String → Lookup VirtualObject
  /-- `c.nsLister.Get(targetNamespace)` -/
  physicalGet : String → Lookup PhysicalObject
  /-- `c.nsLister.List(labels.Everything())`; `none` models a listing error. -/
  physicalList : Option (List PhysicalObject)
  /-- whether `c.namespaceClient.Namespaces().Delete(name, opts)` returns nil -/
  deleteSucceeds : String → Bool
  /-- whether `RequeueObject(clusterName, &item)` returns nil for the item of
  the given name -/
  requeueSucceeds : String → String → Bool

/-- Effects accumulated by a scan: the decisions issued, the log lines, and the
increments of the two remedy counters (`numRequeuedTenantNamespaces` and
`numDeletedOrphanSuperMasterNamespaces`). -/
structure Effects where
  decisions : List Decision
  logs : List LogEvent
  requeued : Nat
  deleted : Nat
deriving DecidableEq, Repr

def Effects.empty : Effects := ⟨[], [], 0, 0⟩

def Effects.append (a b : Effects) : Effects :=
  ⟨a.decisions ++ b.decisions, a.logs ++ b.logs,
   a.requeued + b.requeued, a.deleted + b.deleted⟩

/-- Outcome of the per-tenant scan (or of a prefix of its loop): either it ran
to completion with some effects, or the goroutine hit a runtime panic after
emitting some effects. -/
inductive StepResult where
  | ok (e : Effects)
  | crashed (e : Effects)
deriving DecidableEq, Repr

def StepResult.effects : StepResult → Effects
  | .ok e => e
  | .crashed e => e

def StepResult.isCrashed : StepResult → Bool
  | .ok _ => false
  | .crashed _ => true

/-- Loop body of `checkNamespacesOfTenantCluster` for one virtual namespace
`v` of cluster `clusterName`:

    targetNamespace := conversion.ToSuperMasterNamespace(clusterName, vNamespace.Name)
    pNamespace, err := c.nsLister.Get(targetNamespace)
    if errors.IsNotFound(err) {
      if err := RequeueObject(clusterName, &namespaceList.Items[i]); err != nil { klog.Errorf }
      else { metrics...("numRequeuedTenantNamespaces").Inc() }
      continue
    }
    if err != nil { klog.Errorf }                                  // no continue
    if pNamespace.Annotations[constants.LabelUID] != string(vNamespace.UID) { klog.Errorf }

In the err-and-not-not-found case the Go code logs and then falls through to
read `pNamespace.Annotations` with `pNamespace == nil` (the lister returns a
nil pointer together with the error): a nil-pointer dereference, modelled as
`crashed` carrying the effects emitted before the panic. -/
def stepTenantObject (s : CheckerState) (clusterName : String) (v : VirtualObject) :
    StepResult :=
  let target := ToSuperMasterNamespace clusterName v.name
  match s.physicalGet target with
  | .notFound =>
      if s.requeueSucceeds clusterName v.name then
        .ok ⟨[.requeueVirtual clusterName v], [], 1, 0⟩
      else
        .ok ⟨[.requeueVirtual clusterName v], [.requeueError clusterName v.name], 0, 0⟩
  | .otherError =>
      .crashed ⟨[], [.getPhysicalError clusterName target], 0, 0⟩
  | .found p =>
      if annGet p.anns labelUID ≠ v.uid then
        .ok ⟨[], [.mismatchTenantSide target], 0, 0⟩
      else
        .ok ⟨[], [], 0, 0⟩

/-- The `for i, vNamespace := range namespaceList.Items` loop of
`checkNamespacesOfTenantCluster`; a panic aborts the loop. -/
def tenantLoop (s : CheckerState) (clusterName : String) :
    List VirtualObject → StepResult
  | [] => .ok Effects.empty
  | v :: rest =>
    match stepTenantObject s clusterName v with
    | .crashed e => .crashed e
    | .ok e =>
      match tenantLoop s clusterName rest with
      | .ok e2 => .ok (e.append e2)
      | .crashed e2 => .crashed (e.append e2)

/-- `checkNamespacesOfTenantCluster`: list the tenant's namespaces — on error
log and return — then run the per-object loop. -/
def checkNamespacesOfTenantCluster (s : CheckerState) (clusterName : String) :
    StepResult :=
  match s.tenantList clusterName with
  | none => .ok ⟨[], [.listTenantError clusterName], 0, 0⟩
  | some vs => tenantLoop s clusterName vs

/-- Loop body of the orphan-scan half of `checkNamespaces` for one physical
namespace `p`:

    clusterName, vNamespace := conversion.GetVirtualOwner(pNamespace)
    if len(clusterName) == 0 || len(vNamespace) == 0 { continue }
    shouldDelete := false
    vNamespaceObj, err := c.multiClusterNamespaceController.Get(clusterName, "", vNamespace)
    if errors.IsNotFound(err) { shouldDelete = true }
    if err == nil {
      if pNamespace.Annotations[constants.LabelUID] != string(vNs.UID) {
        shouldDelete = true; klog.Warningf
      }
    }
    if shouldDelete {
      opts := ...Preconditions: metav1.NewUIDPreconditions(string(pNamespace.UID))
      if err := c.namespaceClient.Namespaces().Delete(pNamespace.Name, opts); err != nil { klog.Errorf }
      else { metrics...("numDeletedOrphanSuperMasterNamespaces").Inc() }
    }

Note that the delete precondition is built from `pNamespace.UID` — the
physical object's own UID — and that a Get error other than not-found takes
neither conditional: no log and no decision for that object. -/
def stepPhysicalObject (s : CheckerState) (p : PhysicalObject) : Effects :=
  let owner := GetVirtualOwner p
  if owner.1.length = 0 ∨ owner.2.length = 0 then Effects.empty
  else
    let sd : Bool × List LogEvent :=
      match s.tenantGet owner.1 owner.2 with
      | .notFound => (true, [])
      | .otherError => (false, [])
      | .found v =>
        if annGet p.anns labelUID ≠ v.uid then (true, [.mismatchOrphanSide p.name])
        else (false, [])
    if sd.1 then
      if s.deleteSucceeds p.name then
        ⟨[.deletePhysical p.name p.uid], sd.2, 0, 1⟩
      else
        ⟨[.deletePhysical p.name p.uid], sd.2 ++ [.deleteError p.name], 0, 0⟩
    else
      ⟨[], sd.2, 0, 0⟩

/-- The `for _, pNamespace := range pNamespaces` loop of `checkNamespaces`. -/
def orphanLoop (s : CheckerState) : List PhysicalObject → Effects
  | [] => Effects.empty
  | p :: rest => (stepPhysicalObject s p).append (orphanLoop s rest)

/-- Combined effects of the per-tenant goroutines of one cycle. They run
concurrently in the source, but each one only reads the oracles and appends
to its own effect stream, so the cycle's multiset of effects is deterministic;
it is modelled as registry-order concatenation. -/
def tenantPhaseEffects (s : CheckerState) : Effects :=
  (s.clusterNames.map (fun c => (checkNamespacesOfTenantCluster s c).effects)).foldr
    Effects.append Effects.empty

/-- Whether some per-tenant goroutine of the cycle hit the nil-pointer
dereference. -/
def tenantPhaseCrashed (s : CheckerState) : Bool :=
  (s.clusterNames.map (fun c => checkNamespacesOfTenantCluster s c)).any
    StepResult.isCrashed

/-- Result of one call to `checkNamespaces`: its effects plus which phases
executed. `recordedScanDuration` tracks the `defer metrics.
RecordCheckerScanDuration(...)`, which is registered only after the
empty-registry early return; `processCrashed` records that a per-tenant
goroutine panicked, which kills the process before the orphan scan (a panic
in a goroutine without a recover aborts the program, and
`utilruntime.HandleCrash` is deferred only on the `StartPeriodChecker`
goroutine). -/
structure CycleResult where
  effects : Effects
  ranTenantScans : Bool
  listedPhysical : Bool
  recordedScanDuration : Bool
  processCrashed : Bool
deriving DecidableEq, Repr

/-- `checkNamespaces`: one full check cycle. Empty cluster registry → log and
return at once; otherwise fan out the per-tenant scans, wait, then list the
physical namespaces (on error log and return) and run the orphan loop. -/
def checkNamespaces (s : CheckerState) : CycleResult :=
  if s.clusterNames.isEmpty then
    { effects := ⟨[], [.noClusters], 0, 0⟩
      ranTenantScans := false, listedPhysical := false
      recordedScanDuration := false, processCrashed := false }
  else
    let tEff := tenantPhaseEffects s
    if tenantPhaseCrashed s then
      { effects := tEff
        ranTenantScans := true, listedPhysical := false
        recordedScanDuration := false, processCrashed := true }
    else
      match s.physicalList with
      | none =>
        { effects := tEff.append ⟨[], [.listPhysicalError], 0, 0⟩
          ranTenantScans := true, listedPhysical := true
          recordedScanDuration := true, processCrashed := false }
      | some ps =>
        { effects := tEff.append (orphanLoop s ps)
          ranTenantScans := true, listedPhysical := true
          recordedScanDuration := true, processCrashed := false }

/-- `StartPeriodChecker`: `cacheSyncOk` is the result of
`cache.WaitForCacheSync(stopCh, c.nsSynced)` — `false` exactly when the stop
signal fires before the caches sync. On `false` it returns the sync error
having run no cycle; on `true` it runs `c.checkNamespaces` once per tick of
`wait.Until` until the stop signal ends the loop (`ticks` many), then returns
nil. The result pairs the returned error, if any, with the trace of cycles
run. -/
def StartPeriodChecker (cacheSyncOk : Bool) (ticks : Nat) (s : CheckerState) :
    Option String × List CycleResult :=
  if cacheSyncOk then
    (none, (List.range ticks).map (fun _ => checkNamespaces s))
  else
    (some "failed to wait for caches to sync before starting Namespace checker", [])

/-- The only checker-side state surviving across cycles: the two Prometheus
remedy counters. Everything else read by a cycle lives in the collaborators. -/
structure ProcessCounters where
  requeued : Nat
  deleted : Nat
deriving DecidableEq, Repr

/-- One cycle as the process runs it: compute the cycle from the external
state and fold its counter increments into the process counters. -/
def runCycle (s : CheckerState) (c : ProcessCounters) : ProcessCounters × CycleResult :=
  let r := checkNamespaces s
  (⟨c.requeued + r.effects.requeued, c.deleted + r.effects.deleted⟩, r)

def Decision.isDelete : Decision → Bool
  | .deletePhysical _ _ => true
  | .requeueVirtual _ _ => false

def Decision.isDeleteOf (nm : String) : Decision → Bool
  | .deletePhysical n _ => n == nm
  | .requeueVirtual _ _ => false

/-- Number of delete decisions aimed at the physical object named `nm`. -/
def deleteCount (nm : String) (ds : List Decision) : Nat :=
  (ds.filter (Decision.isDeleteOf nm)).length

theorem Effects.empty_append (e : Effects) : Effects.empty.append e = e := by
  cases e; simp [Effects.append, Effects.empty]

theorem deleteCount_append (nm : String) (a b : List Decision) :
    deleteCount nm (a ++ b) = deleteCount nm a + deleteCount nm b := by
  simp [deleteCount, List.filter_append]

theorem deleteCount_effects_append (nm : String) (a b : Effects) :
    deleteCount nm (a.append b).decisions =
      deleteCount nm a.decisions + deleteCount nm b.decisions := by
  simp [Effects.append, deleteCount, List.filter_append]

theorem deleteCount_eq_zero (nm : String) (ds : List Decision)
    (h : ∀ d ∈ ds, d.isDelete = false) : deleteCount nm ds = 0 := by
  unfold deleteCount
  rw [List.length_eq_zero, List.filter_eq_nil_iff]
  intro d hd
  have hdel := h d hd
  cases d with
  | deletePhysical n u => simp [Decision.isDelete] at hdel
  | requeueVirtual c v => simp [Decision.isDeleteOf]

theorem stepTenantObject_no_delete (s : CheckerState) (c : String) (v : VirtualObject) :
    ∀ d ∈ (stepTenantObject s c v).effects.decisions, d.isDelete = false := by
  intro d hd
  rcases hpg : s.physicalGet (ToSuperMasterNamespace c v.name) with p | _ | _
  · simp only [stepTenantObject, hpg] at hd
    split at hd <;> simp [StepResult.effects] at hd
  · simp only [stepTenantObject, hpg] at hd
    split at hd <;> (simp [StepResult.effects] at hd; simp [hd, Decision.isDelete])
  · simp only [stepTenantObject, hpg] at hd
    simp [StepResult.effects] at hd

theorem tenantLoop_cons_effects (s : CheckerState) (c : String) (v : VirtualObject)
    (rest : List VirtualObject) :
    (tenantLoop s c (v :: rest)).effects =
      if (stepTenantObject s c v).isCrashed then (stepTenantObject s c v).effects
      else (stepTenantObject s c v).effects.append (tenantLoop s c rest).effects := by
  simp only [tenantLoop]
  cases stepTenantObject s c v <;> cases h : tenantLoop s c rest <;>
    simp [StepResult.effects, StepResult.isCrashed, h]

theorem tenantLoop_no_delete (s : CheckerState) (c : String) (vs : List VirtualObject) :
    ∀ d ∈ (tenantLoop s c vs).effects.decisions, d.isDelete = false := by
  induction vs with
  | nil => intro d hd; simp [tenantLoop, StepResult.effects, Effects.empty] at hd
  | cons v rest ih =>
    intro d hd
    rw [tenantLoop_cons_effects] at hd
    by_cases hc : (stepTenantObject s c v).isCrashed = true
    · rw [if_pos hc] at hd
      exact stepTenantObject_no_delete s c v d hd
    · rw [if_neg hc] at hd
      simp only [Effects.append] at hd
      rcases List.mem_append.1 hd with hd | hd
      · exact stepTenantObject_no_delete s c v d hd
      · exact ih d hd

theorem checkNamespacesOfTenantCluster_no_delete (s : CheckerState) (c : String) :
    ∀ d ∈ (checkNamespacesOfTenantCluster s c).effects.decisions, d.isDelete = false := by
  intro d hd
  unfold checkNamespacesOfTenantCluster at hd
  cases h : s.tenantList c with
  | none => rw [h] at hd; simp [StepResult.effects] at hd
  | some vs => rw [h] at hd; exact tenantLoop_no_delete s c vs d hd

theorem tenantPhase_no_delete (s : CheckerState) :
    ∀ d ∈ (tenantPhaseEffects s).decisions, d.isDelete = false := by
  unfold tenantPhaseEffects
  generalize s.clusterNames = cs
  induction cs with
  | nil => intro d hd; simp [Effects.empty] at hd
  | cons c rest ih =>
    intro d hd
    simp only [List.map_cons, List.foldr_cons, Effects.append] at hd
    rcases List.mem_append.1 hd with hd | hd
    · exact checkNamespacesOfTenantCluster_no_delete s c d hd
    · exact ih d hd

theorem stepPhysicalObject_decisions (s : CheckerState) (p : PhysicalObject) :
    (stepPhysicalObject s p).decisions = [] ∨
    (stepPhysicalObject s p).decisions = [Decision.deletePhysical p.name p.uid] := by
  simp only [stepPhysicalObject]
  split
  · left; rfl
  · split
    · split
      · right; rfl
      · right; rfl
    · left; rfl

theorem orphanLoop_delete_shape (s : CheckerState) (ps : List PhysicalObject) :
    ∀ d ∈ (orphanLoop s ps).decisions,
      ∃ p ∈ ps, d = Decision.deletePhysical p.name p.uid := by
  induction ps with
  | nil => intro d hd; simp [orphanLoop, Effects.empty] at hd
  | cons p rest ih =>
    intro d hd
    simp only [orphanLoop, Effects.append] at hd
    rcases List.mem_append.1 hd with hd | hd
    · rcases stepPhysicalObject_decisions s p with h | h <;> rw [h] at hd
      · simp at hd
      · simp at hd
        exact ⟨p, by simp, hd⟩
    · rcases ih d hd with ⟨q, hq, hdq⟩
      exact ⟨q, List.mem_cons_of_mem _ hq, hdq⟩

theorem orphanLoop_deleteCount_zero (s : CheckerState) (nm : String)
    (ps : List PhysicalObject) (h : ∀ p ∈ ps, p.name ≠ nm) :
    deleteCount nm (orphanLoop s ps).decisions = 0 := by
  unfold deleteCount
  rw [List.length_eq_zero, List.filter_eq_nil_iff]
  intro d hd
  rcases orphanLoop_delete_shape s ps d hd with ⟨p, hp, rfl⟩
  simp [Decision.isDeleteOf, h p hp]

theorem orphanLoop_cons_decisions (s : CheckerState) (p : PhysicalObject)
    (rest : List PhysicalObject) :
    (orphanLoop s (p :: rest)).decisions =
      (stepPhysicalObject s p).decisions ++ (orphanLoop s rest).decisions := by
  simp [orphanLoop, Effects.append]

/-- Evaluation of the orphan-scan loop body on a managed physical object whose
virtual lookup is not-found: the delete is issued with the physical object's
own UID as precondition; success bumps the orphan-deleted counter, failure
logs instead. -/
theorem stepPhysicalObject_notFound (s : CheckerState) (p : PhysicalObject)
    (hc : (GetVirtualOwner p).1.length ≠ 0) (hn : (GetVirtualOwner p).2.length ≠ 0)
    (hget : s.tenantGet (GetVirtualOwner p).1 (GetVirtualOwner p).2 = .notFound) :
    stepPhysicalObject s p =
      if s.deleteSucceeds p.name then
        ⟨[.deletePhysical p.name p.uid], [], 0, 1⟩
      else
        ⟨[.deletePhysical p.name p.uid], [.deleteError p.name], 0, 0⟩ := by
  simp only [stepPhysicalObject, hget]
  rw [if_neg (not_or.mpr ⟨hc, hn⟩)]
  simp

/-- Evaluation of the orphan-scan loop body on a managed physical object whose
virtual object is found but whose delegated fingerprint differs from the
virtual object's UID: warn, then delete with the physical object's own UID as
precondition. -/
theorem stepPhysicalObject_mismatch (s : CheckerState) (p : PhysicalObject)
    (v : VirtualObject)
    (hc : (GetVirtualOwner p).1.length ≠ 0) (hn : (GetVirtualOwner p).2.length ≠ 0)
    (hget : s.tenantGet (GetVirtualOwner p).1 (GetVirtualOwner p).2 = .found v)
    (hmis : annGet p.anns labelUID ≠ v.uid) :
    stepPhysicalObject s p =
      if s.deleteSucceeds p.name then
        ⟨[.deletePhysical p.name p.uid], [.mismatchOrphanSide p.name], 0, 1⟩
      else
        ⟨[.deletePhysical p.name p.uid],
         [.mismatchOrphanSide p.name, .deleteError p.name], 0, 0⟩ := by
  simp only [stepPhysicalObject, hget]
  rw [if_neg (not_or.mpr ⟨hc, hn⟩), if_pos hmis]
  simp

/-- If `p` is the unique physical object of its name in the listing and its
loop body issues a delete, the orphan scan issues exactly one delete aimed at
that name over the whole listing. -/
theorem orphanLoop_deleteCount_uniq (s : CheckerState) (p : PhysicalObject) :
    ∀ ps : List PhysicalObject, ps.filter (fun q => q.name == p.name) = [p] →
    (stepPhysicalObject s p).decisions = [Decision.deletePhysical p.name p.uid] →
    deleteCount p.name (orphanLoop s ps).decisions = 1 := by
  intro ps
  induction ps with
  | nil => intro h _; simp at h
  | cons q rest ih =>
    intro hfilter hstep
    rw [orphanLoop_cons_decisions, deleteCount_append]
    cases hq : (q.name == p.name) with
    | true =>
      simp only [List.filter_cons, hq, if_true] at hfilter
      obtain ⟨hqp, hrest⟩ := List.cons_eq_cons.mp hfilter
      have hrest0 : deleteCount p.name (orphanLoop s rest).decisions = 0 := by
        refine orphanLoop_deleteCount_zero s p.name rest ?_
        intro r hr hrn
        have := List.filter_eq_nil_iff.1 hrest r hr
        simp [hrn] at this
      rw [hqp, hstep, hrest0]
      simp [deleteCount, Decision.isDeleteOf]
    | false =>
      simp only [List.filter_cons, hq] at hfilter
      have h0 : deleteCount p.name (stepPhysicalObject s q).decisions = 0 := by
        rcases stepPhysicalObject_decisions s q with h | h <;> rw [h]
        · rfl
        · simp [deleteCount, Decision.isDeleteOf, hq]
      rw [h0, ih hfilter hstep]

/-! Concrete fixtures used by witnesses and counterexamples. -/

/-- A physical namespace owned by tenant "t1" / virtual name "ns1", carrying
the delegated fingerprint "u1" and its own super-master UID "pu-201". -/
def pT1NS1 : PhysicalObject :=
  ⟨"t1-ns1", "pu-201",
   [(labelCluster, "t1"), (labelNamespace, "ns1"), (labelUID, "u1")]⟩

/-- A scenario with one tenant, no virtual namespaces, and `pT1NS1` in the
super-master cache with its virtual lookup answering not-found. -/
def stateOrphanNF : CheckerState :=
  { clusterNames := ["t1"]
    tenantList := fun _ => some []
    tenantGet := fun _ _ => .notFound
    physicalGet := fun _ => .notFound
    physicalList := some [pT1NS1]
    deleteSucceeds := fun _ => true
    requeueSucceeds := fun _ _ => true }

/-- C1: counterexample. In `stateOrphanNF` the orphan scan deletes `pT1NS1`;
the conditional delete carries precondition "pu-201" — the physical object's
own UID (`pNamespace.UID`) — while the delegated fingerprint read by the scan
(`pNamespace.Annotations[constants.LabelUID]`) is "u1", so the precondition
is not the delegated fingerprint the claim names. -/
theorem c1_counterexample :
    (checkNamespaces stateOrphanNF).effects.decisions =
      [Decision.deletePhysical "t1-ns1" "pu-201"] ∧
    annGet pT1NS1.anns labelUID = "u1" ∧
    ("pu-201" : String) ≠ "u1" := by
  refine ⟨by decide, by decide, by decide⟩

/-- C1 (amended): every conditional delete issued during a cycle carries as
its precondition the `metadata.uid` of a listed physical object of that name —
the physical object's own UID as read by the scan — rather than the delegated
fingerprint annotation. -/
theorem c1_amended_delete_precondition (s : CheckerState) (nm pre : String)
    (h : Decision.deletePhysical nm pre ∈ (checkNamespaces s).effects.decisions) :
    ∃ ps, s.physicalList = some ps ∧ ∃ p ∈ ps, p.name = nm ∧ pre = p.uid := by
  have hno : ∀ d ∈ (tenantPhaseEffects s).decisions, d.isDelete = false :=
    tenantPhase_no_delete s
  by_cases he : s.clusterNames.isEmpty
  · simp [checkNamespaces, he] at h
  · by_cases hcr : tenantPhaseCrashed s = true
    · simp only [checkNamespaces, if_neg he, if_pos hcr] at h
      have := hno _ h
      simp [Decision.isDelete] at this
    · cases hpl : s.physicalList with
      | none =>
        simp only [checkNamespaces, if_neg he, if_neg hcr, hpl] at h
        simp only [Effects.append] at h
        rcases List.mem_append.1 h with h | h
        · have := hno _ h
          simp [Decision.isDelete] at this
        · simp at h
      | some ps =>
        simp only [checkNamespaces, if_neg he, if_neg hcr, hpl] at h
        simp only [Effects.append] at h
        rcases List.mem_append.1 h with h | h
        · have := hno _ h
          simp [Decision.isDelete] at this
        · rcases orphanLoop_delete_shape s ps _ h with ⟨p, hp, heq⟩
          rcases Decision.deletePhysical.injEq .. ▸ heq with ⟨h1, h2⟩
          exact ⟨ps, rfl, p, hp, h1.symm, h2⟩

/-- C1 (amended), witness at `stateOrphanNF`. -/
theorem c1_amended_witness :
    ∃ ps, stateOrphanNF.physicalList = some ps ∧
      ∃ p ∈ ps, p.name = "t1-ns1" ∧ "pu-201" = p.uid :=
  c1_amended_delete_precondition stateOrphanNF "t1-ns1" "pu-201" (by decide)

/-- A scenario for the tenant scanner: tenant "t1" has two virtual
namespaces; the physical lookup for the first fails with a non-not-found
error, the second's physical counterpart is missing. -/
def stateTenantErr : CheckerState :=
  { clusterNames := ["t1"]
    tenantList := fun _ => some [⟨"ns1", "u1"⟩, ⟨"ns2", "u2"⟩]
    tenantGet := fun _ _ => .notFound
    physicalGet := fun nm => if nm = "t1-ns1" then .otherError else .notFound
    physicalList := some []
    deleteSucceeds := fun _ => true
    requeueSucceeds := fun _ _ => true }

/-- C2: the claim matches the spec but not the code — in `stateTenantErr` the
physical lookup for "t1-ns1" fails with a non-not-found error; the code logs
the error and then, lacking a `continue`, dereferences the nil `pNamespace`
returned alongside the error, so the per-tenant scan dies after the log: the
second virtual namespace (which would have been requeued) is never processed,
no decision is emitted at all, and the process crashes before the orphan
scan. -/
theorem c2_lookup_error_crashes :
    checkNamespacesOfTenantCluster stateTenantErr "t1" =
      .crashed ⟨[], [.getPhysicalError "t1" "t1-ns1"], 0, 0⟩ ∧
    (checkNamespaces stateTenantErr).processCrashed = true ∧
    (checkNamespaces stateTenantErr).effects.decisions = [] ∧
    (checkNamespaces stateTenantErr).effects.requeued = 0 ∧
    (checkNamespaces stateTenantErr).listedPhysical = false := by
  refine ⟨by decide, by decide, by decide, by decide, by decide⟩

/-- C3: in the orphan scan, a physical object with a valid owner annotation
whose virtual-object lookup is not-found gets a conditional delete; the
orphan-deleted counter is bumped by exactly 1 when the delete succeeds, and
on failure the error is logged and the counter is unchanged. -/
theorem c3_orphan_delete_on_notfound (s : CheckerState) (p : PhysicalObject)
    (hc : (GetVirtualOwner p).1.length ≠ 0) (hn : (GetVirtualOwner p).2.length ≠ 0)
    (hget : s.tenantGet (GetVirtualOwner p).1 (GetVirtualOwner p).2 = .notFound) :
    stepPhysicalObject s p =
      if s.deleteSucceeds p.name then
        ⟨[.deletePhysical p.name p.uid], [], 0, 1⟩
      else
        ⟨[.deletePhysical p.name p.uid], [.deleteError p.name], 0, 0⟩ :=
  stepPhysicalObject_notFound s p hc hn hget

/-- C3, witness: the not-found orphan `pT1NS1` is deleted and the counter
increment is 1. -/
theorem c3_witness :
    stepPhysicalObject stateOrphanNF pT1NS1 =
      ⟨[.deletePhysical "t1-ns1" "pu-201"], [], 0, 1⟩ := by
  have h := c3_orphan_delete_on_notfound stateOrphanNF pT1NS1
    (by decide) (by decide) rfl
  exact h

/-- C4: in the tenant scan, a virtual namespace whose expected physical
counterpart is not found is requeued; the requeue counter is bumped by
exactly 1 when the enqueue succeeds, and on failure the error is logged, the
counter is unchanged, and the loop body ends there (no retry in the cycle). -/
theorem c4_requeue_on_missing_physical (s : CheckerState) (clusterName : String)
    (v : VirtualObject)
    (h : s.physicalGet (ToSuperMasterNamespace clusterName v.name) = .notFound) :
    stepTenantObject s clusterName v =
      if s.requeueSucceeds clusterName v.name then
        .ok ⟨[.requeueVirtual clusterName v], [], 1, 0⟩
      else
        .ok ⟨[.requeueVirtual clusterName v], [.requeueError clusterName v.name], 0, 0⟩ := by
  simp only [stepTenantObject, h]

/-- C4, witness: the unmatched virtual namespace "ns2" of `stateTenantErr` is
requeued with a counter increment of 1. -/
theorem c4_witness :
    stepTenantObject stateTenantErr "t1" ⟨"ns2", "u2"⟩ =
      .ok ⟨[.requeueVirtual "t1" ⟨"ns2", "u2"⟩], [], 1, 0⟩ := by
  have h := c4_requeue_on_missing_physical stateTenantErr "t1" ⟨"ns2", "u2"⟩ (by decide)
  exact h

/-- The effects of a completed cycle: tenant-phase effects followed by the
orphan scan over the listed physical namespaces. -/
theorem checkNamespaces_effects (s : CheckerState) (ps : List PhysicalObject)
    (he : s.clusterNames.isEmpty = false) (hcr : tenantPhaseCrashed s = false)
    (hps : s.physicalList = some ps) :
    (checkNamespaces s).effects = (tenantPhaseEffects s).append (orphanLoop s ps) := by
  simp [checkNamespaces, he, hcr, hps]

/-- C5: for a pair (P, V) that map to each other by the owner mapping but
whose fingerprints differ, a completed cycle emits exactly one delete aimed
at P, and it comes from the orphan scan; the tenant scanner's mismatch branch
for V produces only the warning log — no decision, no counter change. -/
theorem c5_mismatch_single_delete (s : CheckerState) (p : PhysicalObject)
    (v : VirtualObject) (ps : List PhysicalObject)
    (hcl : s.clusterNames.isEmpty = false)
    (hnocrash : tenantPhaseCrashed s = false)
    (hps : s.physicalList = some ps)
    (huniq : ps.filter (fun q => q.name == p.name) = [p])
    (hc : (GetVirtualOwner p).1.length ≠ 0) (hn : (GetVirtualOwner p).2.length ≠ 0)
    (hget : s.tenantGet (GetVirtualOwner p).1 (GetVirtualOwner p).2 = .found v)
    (hmis : annGet p.anns labelUID ≠ v.uid)
    (hpg : s.physicalGet (ToSuperMasterNamespace (GetVirtualOwner p).1 v.name) =
             .found p) :
    deleteCount p.name (checkNamespaces s).effects.decisions = 1 ∧
    stepTenantObject s (GetVirtualOwner p).1 v =
      .ok ⟨[], [.mismatchTenantSide (ToSuperMasterNamespace (GetVirtualOwner p).1 v.name)],
           0, 0⟩ := by
  constructor
  · rw [checkNamespaces_effects s ps hcl hnocrash hps, deleteCount_effects_append]
    have h0 : deleteCount p.name (tenantPhaseEffects s).decisions = 0 :=
      deleteCount_eq_zero _ _ (tenantPhase_no_delete s)
    have hstep : (stepPhysicalObject s p).decisions =
        [Decision.deletePhysical p.name p.uid] := by
      rw [stepPhysicalObject_mismatch s p v hc hn hget hmis]
      split <;> rfl
    rw [h0, orphanLoop_deleteCount_uniq s p ps huniq hstep]
  · simp only [stepTenantObject, hpg]
    rw [if_pos hmis]

/-- The virtual namespace "ns1" as recreated with a fresh UID "u2". -/
def vNS1u2 : VirtualObject := ⟨"ns1", "u2"⟩

/-- A scenario in which `pT1NS1` (fingerprint "u1") and `vNS1u2` (UID "u2")
map to each other but disagree on the fingerprint. -/
def stateMismatch : CheckerState :=
  { clusterNames := ["t1"]
    tenantList := fun _ => some [vNS1u2]
    tenantGet := fun _ _ => .found vNS1u2
    physicalGet := fun _ => .found pT1NS1
    physicalList := some [pT1NS1]
    deleteSucceeds := fun _ => true
    requeueSucceeds := fun _ _ => true }

/-- C5, witness at `stateMismatch`. -/
theorem c5_witness :
    deleteCount "t1-ns1" (checkNamespaces stateMismatch).effects.decisions = 1 ∧
    stepTenantObject stateMismatch "t1" vNS1u2 =
      .ok ⟨[], [.mismatchTenantSide "t1-ns1"], 0, 0⟩ := by
  have h := c5_mismatch_single_delete stateMismatch pT1NS1 vNS1u2 [pT1NS1]
    (by decide) (by decide) rfl (by decide) (by decide) (by decide) rfl
    (by decide) rfl
  exact ⟨h.1, h.2⟩

/-- A scenario with one managed physical object whose virtual lookup fails
with a non-not-found error. -/
def stateOrphanErr : CheckerState :=
  { clusterNames := ["t1"]
    tenantList := fun _ => some []
    tenantGet := fun _ _ => .otherError
    physicalGet := fun _ => .notFound
    physicalList := some [pT1NS1]
    deleteSucceeds := fun _ => true
    requeueSucceeds := fun _ _ => true }

/-- C6: counterexample. In `stateOrphanErr` the virtual lookup for the one
managed physical object fails with a non-not-found error, and the cycle emits
no log line at all (and no decision): the failure is not logged, because the
orphan-scan branch for such errors takes neither of the two conditionals and
has no logging call site. -/
theorem c6_counterexample :
    stateOrphanErr.physicalList = some [pT1NS1] ∧
    stateOrphanErr.tenantGet (GetVirtualOwner pT1NS1).1 (GetVirtualOwner pT1NS1).2 =
      .otherError ∧
    (checkNamespaces stateOrphanErr).effects.logs = [] ∧
    (checkNamespaces stateOrphanErr).effects.decisions = [] := by
  refine ⟨rfl, rfl, by decide, by decide⟩

/-- C6 (amended): a non-not-found virtual-lookup error in the orphan scan is
silently skipped — no log, no decision, no counter change — and the remaining
physical objects are processed exactly as if the object were absent. -/
theorem c6_amended_silent_skip (s : CheckerState) (p : PhysicalObject)
    (hc : (GetVirtualOwner p).1.length ≠ 0) (hn : (GetVirtualOwner p).2.length ≠ 0)
    (hget : s.tenantGet (GetVirtualOwner p).1 (GetVirtualOwner p).2 = .otherError) :
    stepPhysicalObject s p = Effects.empty ∧
    ∀ rest : List PhysicalObject, orphanLoop s (p :: rest) = orphanLoop s rest := by
  have h1 : stepPhysicalObject s p = Effects.empty := by
    simp only [stepPhysicalObject, hget]
    rw [if_neg (not_or.mpr ⟨hc, hn⟩)]
    rfl
  refine ⟨h1, fun rest => ?_⟩
  show (stepPhysicalObject s p).append (orphanLoop s rest) = orphanLoop s rest
  rw [h1, Effects.empty_append]

/-- C6 (amended), witness at `stateOrphanErr`. -/
theorem c6_amended_witness :
    stepPhysicalObject stateOrphanErr pT1NS1 = Effects.empty ∧
    orphanLoop stateOrphanErr [pT1NS1] = orphanLoop stateOrphanErr [] := by
  have h := c6_amended_silent_skip stateOrphanErr pT1NS1 (by decide) (by decide) rfl
  exact ⟨h.1, h.2 []⟩

/-- C7: with an empty tenant registry the cycle is a no-op: it logs the
give-up line and returns before the scan-duration defer is registered — no
per-tenant scan, no physical listing, no decision, no counter change, no
crash. -/
theorem c7_empty_registry_noop (s : CheckerState) (h : s.clusterNames = []) :
    checkNamespaces s =
      { effects := ⟨[], [.noClusters], 0, 0⟩
        ranTenantScans := false, listedPhysical := false
        recordedScanDuration := false, processCrashed := false } := by
  simp [checkNamespaces, h]

/-- An external state whose tenant registry is empty while the physical cache
is not. -/
def stateNoTenants : CheckerState :=
  { clusterNames := []
    tenantList := fun _ => some []
    tenantGet := fun _ _ => .notFound
    physicalGet := fun _ => .notFound
    physicalList := some [pT1NS1]
    deleteSucceeds := fun _ => true
    requeueSucceeds := fun _ _ => true }

/-- C7, witness at `stateNoTenants`. -/
theorem c7_witness :
    checkNamespaces stateNoTenants =
      { effects := ⟨[], [.noClusters], 0, 0⟩
        ranTenantScans := false, listedPhysical := false
        recordedScanDuration := false, processCrashed := false } :=
  c7_empty_registry_noop stateNoTenants rfl

/-- C8: when the stop signal beats the cache-sync barrier the checker returns
an error and runs no cycle; when the barrier completes it enters the periodic
loop — one `checkNamespaces` per tick — and returns no error. -/
theorem c8_sync_gate (ticks : Nat) (s : CheckerState) :
    (StartPeriodChecker false ticks s).1.isSome = true ∧
    (StartPeriodChecker false ticks s).2 = [] ∧
    (StartPeriodChecker true ticks s).1 = none ∧
    (StartPeriodChecker true ticks s).2.length = ticks ∧
    ∀ r ∈ (StartPeriodChecker true ticks s).2, r = checkNamespaces s := by
  have h2 : (StartPeriodChecker true ticks s).2 =
      (List.range ticks).map (fun _ => checkNamespaces s) := rfl
  refine ⟨rfl, rfl, rfl, by rw [h2]; simp, ?_⟩
  intro r hr
  rw [h2] at hr
  rcases List.mem_map.1 hr with ⟨a, _, h⟩
  exact h.symm

/-- C9: the only checker state that survives a cycle is the pair of counters,
which no cycle reads; hence two consecutive cycles against the same external
state produce identical results — in particular the same decisions, none
being consumed by the first run. -/
theorem c9_cycle_idempotent (s : CheckerState) (c0 : ProcessCounters) :
    ((runCycle s (runCycle s c0).1).2).effects.decisions =
      ((runCycle s c0).2).effects.decisions ∧
    (runCycle s (runCycle s c0).1).2 = (runCycle s c0).2 :=
  ⟨rfl, rfl⟩

/-- C10: a physical object with a valid owner annotation but an absent or
empty delegated-fingerprint annotation, whose owner's virtual object exists
with a non-empty UID, is treated as a fingerprint mismatch (Go's missing-key
read yields "") and conditionally deleted. -/
theorem c10_empty_fingerprint_mismatch (s : CheckerState) (p : PhysicalObject)
    (v : VirtualObject)
    (hc : (GetVirtualOwner p).1.length ≠ 0) (hn : (GetVirtualOwner p).2.length ≠ 0)
    (hfp : annGet p.anns labelUID = "")
    (hget : s.tenantGet (GetVirtualOwner p).1 (GetVirtualOwner p).2 = .found v)
    (hv : v.uid ≠ "") :
    stepPhysicalObject s p =
      if s.deleteSucceeds p.name then
        ⟨[.deletePhysical p.name p.uid], [.mismatchOrphanSide p.name], 0, 1⟩
      else
        ⟨[.deletePhysical p.name p.uid],
         [.mismatchOrphanSide p.name, .deleteError p.name], 0, 0⟩ :=
  stepPhysicalObject_mismatch s p v hc hn hget (by rw [hfp]; exact Ne.symm hv)

/-- A physical namespace with a valid owner annotation but no delegated
fingerprint annotation. -/
def pNoFp : PhysicalObject :=
  ⟨"t1-ns2", "pu-202", [(labelCluster, "t1"), (labelNamespace, "ns2")]⟩

/-- A scenario in which `pNoFp` has a live virtual owner with UID "u9". -/
def stateNoFp : CheckerState :=
  { clusterNames := ["t1"]
    tenantList := fun _ => some []
    tenantGet := fun _ _ => .found ⟨"ns2", "u9"⟩
    physicalGet := fun _ => .notFound
    physicalList := some [pNoFp]
    deleteSucceeds := fun _ => true
    requeueSucceeds := fun _ _ => true }

/-- C10, witness at `stateNoFp`. -/
theorem c10_witness :
    stepPhysicalObject stateNoFp pNoFp =
      ⟨[.deletePhysical "t1-ns2" "pu-202"], [.mismatchOrphanSide "t1-ns2"], 0, 1⟩ := by
  have h := c10_empty_fingerprint_mismatch stateNoFp pNoFp ⟨"ns2", "u9"⟩
    (by decide) (by decide) rfl rfl (by decide)
  exact h

end NamespaceChecker
